import Mathlib

/-!
Shallow embedding of the blog client in Aran30/modelinglanguages
(frontend React application).  The embedded components are:

* the `BlogPost` record (`src/frontend/src/types/blog.ts`, shown inside
  `src/unnamed/part_000`);
* the feed sort `sortedPosts` (`src/frontend/src/pages/Home.tsx`);
* the feed loader `loadPosts` (`src/frontend/src/pages/Home.tsx`);
* the Composer `handleChange` / `handleSubmit` (`src/frontend/src/pages/BlogEditor.tsx`);
* the card cover-image resolution (`src/frontend/src/components/blog/BlogCard.tsx`);
* the route table of `App` (`src/unnamed/part_000`).

JavaScript-level behaviour is modelled explicitly where it matters:
`new Date(s).getTime()` returns `NaN` exactly when the string does not
parse (modelled as `Option Int`), `Array.prototype.sort` coerces a `NaN`
comparator result to `+0` (ECMAScript `SortCompare`) and is a stable sort
(required since ES2019), and `x || y` falls through to `y` when `x` is
`undefined` or the empty string.
-/

/-- The `BlogPost` interface (`src/frontend/src/types/blog.ts`):
`id`, `title`, `content`, optional `image`, `timestamp` (a date string),
`authorName`, optional/nullable `hasComments`.  An absent or `null`
comment array is `none`; the opaque comment entries are modelled as `Unit`
because only presence and length are ever read. -/
structure BlogPost where
  id : Nat
  title : String
  content : String
  image : Option String
  timestamp : String
  authorName : String
  hasComments : Option (List Unit)
deriving DecidableEq, Repr

/-- Splits a character list at every dash, the way `"a-b-c".split("-")`
does (used to model ECMAScript date-only parsing of `YYYY-MM-DD`). -/
def splitDash : List Char → List (List Char)
  | [] => [[]]
  | c :: cs =>
    let r := splitDash cs
    if c = '-' then [] :: r
    else
      match r with
      | [] => [[c]]
      | g :: gs => (c :: g) :: gs

/-- Reads a digit list as a decimal number (the lists fed to it are
guarded to be all digits). -/
def digitsToNat (cs : List Char) : Nat :=
  cs.foldl (fun n c => n * 10 + (c.toNat - 48)) 0

/-- Models `new Date(s).getTime()` on the ISO date-only form `YYYY-MM-DD`
that this application itself writes into `timestamp`
(`new Date().toISOString().split("T")[0]` in `BlogEditor.tsx`): a valid
date string yields `some k` with `k` ordered exactly as the epoch
milliseconds of the date, and a string the `Date` parser rejects yields
`none`, standing for `NaN`.  The encoding `y*10000 + m*100 + d` is
order-isomorphic to the epoch value on valid dates, which is all the
comparator below ever looks at. -/
def jsDateParse (s : String) : Option Int :=
  match splitDash s.toList with
  | [y, m, d] =>
    if y.length = 4 ∧ m.length = 2 ∧ d.length = 2 ∧
        y.all Char.isDigit ∧ m.all Char.isDigit ∧ d.all Char.isDigit then
      let yn := digitsToNat y
      let mn := digitsToNat m
      let dn := digitsToNat d
      if 1 ≤ mn ∧ mn ≤ 12 ∧ 1 ≤ dn ∧ dn ≤ 31 then
        some ((yn * 10000 + mn * 100 + dn : Nat) : Int)
      else none
    else none
  | _ => none

/-- The comparator body of `sortedPosts` (`Home.tsx`):
`(a, b) => new Date(b.timestamp).getTime() - new Date(a.timestamp).getTime()`.
When either timestamp is unparseable the subtraction is `NaN`, and
ECMAScript `SortCompare` coerces a `NaN` comparator result to `+0`, so the
model returns `0` in that case. -/
def postCompare (a b : BlogPost) : Int :=
  match jsDateParse a.timestamp, jsDateParse b.timestamp with
  | some l, some r => r - l
  | _, _ => 0

/-- Stable insertion of `x` into `l`: `x` is placed before the first
element `y` with `c x y ≤ 0` and after every earlier element.  Equal
elements keep the later-inserted one behind, which gives the stability
`Array.prototype.sort` guarantees. -/
def insertSorted (c : α → α → Int) (x : α) : List α → List α
  | [] => [x]
  | y :: ys => if c x y ≤ 0 then x :: y :: ys else y :: insertSorted c x ys

/-- Model of `Array.prototype.sort` with an integer comparator: a stable
comparison sort (stability is mandated by ES2019; for an inconsistent
comparator this realises the implementation-defined order as the one in
which elements that compare equal keep their relative positions). -/
def jsStableSort (c : α → α → Int) : List α → List α
  | [] => []
  | x :: xs => insertSorted c x (jsStableSort c xs)

/-- `sortedPosts` (`Home.tsx`): `[...posts].sort((a, b) => right - left)`
with `left`/`right` the parsed timestamps of `a`/`b`. -/
def sortedPosts (posts : List BlogPost) : List BlogPost :=
  jsStableSort postCompare posts

/-- Models ECMAScript `String.prototype.trim()`: strips whitespace from
both ends of the string. -/
def jsTrim (s : String) : String :=
  ⟨((s.toList.dropWhile Char.isWhitespace).reverse.dropWhile Char.isWhitespace).reverse⟩

/-- The state held by the `Home` component (`Home.tsx`): the post
collection, the loading flag and the error message (`null` = `none`). -/
structure HomeState where
  posts : List BlogPost
  loading : Bool
  error : Option String
deriving DecidableEq, Repr

/-- The fixed feed-failure message set by `loadPosts` (`Home.tsx`). -/
def LOAD_ERROR_MSG : String :=
  "Unable to load the blog feed right now. Please try again."

/-- The body the feed endpoint answered with, as the success path of
`loadPosts` distinguishes it: an array of posts, or anything that is not
an array (`Array.isArray(response.data)` false).  A 2xx body that is
malformed JSON lands in the second case: under axios defaults
(`silentJSONParsing`) the parse failure does not reject, the promise
resolves with the raw string as `data`, and a string is not an array. -/
inductive FeedBody where
  | arr (posts : List BlogPost)
  | nonArray
deriving DecidableEq, Repr

/-- Outcome of the awaited `axios.get` in `loadPosts`: the promise
resolves with a body, or it rejects (network error or non-2xx status)
and control reaches the `catch` block. -/
inductive FeedResult where
  | ok (body : FeedBody)
  | err
deriving DecidableEq, Repr

/-- `loadPosts` (`Home.tsx`): sets `loading` true and clears `error`,
awaits the GET; on success stores the body if it is an array and `[]`
otherwise; on rejection logs and sets the fixed error message; the
`finally` clause clears `loading` on every path. -/
def loadPosts (r : FeedResult) (s : HomeState) : HomeState :=
  let s1 : HomeState := { s with loading := true, error := none }
  match r with
  | .ok body =>
    let s2 := { s1 with posts := match body with | .arr ps => ps | .nonArray => [] }
    { s2 with loading := false }
  | .err =>
    let s2 := { s1 with error := some LOAD_ERROR_MSG }
    { s2 with loading := false }

/-- The Composer's form state (`BlogEditorState` in `BlogEditor.tsx`). -/
structure FormValues where
  title : String
  authorName : String
  content : String
  image : String
deriving DecidableEq, Repr

/-- `handleChange` (`BlogEditor.tsx`):
`setFormValues(prev => ({ ...prev, [name]: value }))`.  The computed key
is the `name` attribute of the originating input; the four inputs of the
form carry the names `title`, `authorName`, `content` and `image`.  A
spread with any other key would add a property outside the typed state,
leaving the four typed fields unchanged, which the final `else` models. -/
def handleChange (name value : String) (prev : FormValues) : FormValues :=
  if name = "title" then { prev with title := value }
  else if name = "authorName" then { prev with authorName := value }
  else if name = "content" then { prev with content := value }
  else if name = "image" then { prev with image := value }
  else prev

/-- The remaining state of the `BlogEditor` component (`BlogEditor.tsx`):
form values, the `submitting` flag, the error and success messages. -/
structure ComposerState where
  formValues : FormValues
  submitting : Bool
  error : Option String
  success : Option String
deriving DecidableEq, Repr

/-- The fixed local-validation message of `handleSubmit` (`BlogEditor.tsx`). -/
def VALIDATION_MSG : String :=
  "Please complete the title, author, and content fields."

/-- The fallback message when the server answered but supplied no usable
`detail` (`BlogEditor.tsx`). -/
def SERVER_REJECTED_MSG : String :=
  "The server rejected this post. Please try again."

/-- The generic connectivity message when no server response arrived
(`BlogEditor.tsx`). -/
def CONNECTIVITY_MSG : String :=
  "Unable to publish right now. Check your connection and try again."

/-- The success message of `handleSubmit` (`BlogEditor.tsx`). -/
def SUBMIT_SUCCESS_MSG : String := "Blog post published."

/-- `DEFAULT_IMAGE` (`BlogEditor.tsx`): fallback cover image sent when the
image field is blank. -/
def DEFAULT_IMAGE : String :=
  "https://images.unsplash.com/photo-1520607162513-77705c0f0d4a?auto=format&fit=crop&w=1200&q=80"

/-- How the `catch` block of `handleSubmit` sees a failed create request:
either `axios.isAxiosError(err) && err.response` holds — the server
responded, with `detail` carrying the `detail` string of the JSON body
when one is present — or not (network failure / anything thrown without a
response). -/
inductive CreateFailure where
  | response (detail : Option String)
  | network
deriving DecidableEq, Repr

/-- The message selection of the `catch` block in `handleSubmit`
(`BlogEditor.tsx`): with a response, `detail || SERVER_REJECTED_MSG`
(JavaScript `||` falls through when `detail` is absent or the empty
string); without one, the connectivity message. -/
def composerErrorMessage : CreateFailure → String
  | .response (some d) => if d = "" then SERVER_REJECTED_MSG else d
  | .response none => SERVER_REJECTED_MSG
  | .network => CONNECTIVITY_MSG

/-- Outcome of the awaited `axios.post` in `handleSubmit`: resolved, or
rejected with a failure the `catch` block inspects. -/
inductive SubmitOutcome where
  | ok
  | fail (e : CreateFailure)
deriving DecidableEq, Repr

/-- The JSON body `handleSubmit` posts (`BlogEditor.tsx`): trimmed title,
author and content, the trimmed image or the default, the day-granularity
timestamp, and an empty comment array. -/
structure Payload where
  title : String
  authorName : String
  content : String
  image : String
  timestamp : String
  hasComments : List Unit
deriving DecidableEq, Repr

/-- `handleSubmit` (`BlogEditor.tsx`) as a state transformer.  `today` is
`new Date().toISOString().split("T")[0]`; `outcome` is how the awaited
POST settles.  Returns the new component state together with the payload
sent, `none` when validation stopped the submit before any network call.
The validation guard is `!title.trim() || !authorName.trim() ||
!content.trim()`; the success path sets the success message, clears the
fields and schedules navigation (not part of this state); the `catch`
path sets the selected error message; the `finally` clause clears
`submitting` on both. -/
def handleSubmit (today : String) (outcome : SubmitOutcome) (s : ComposerState) :
    ComposerState × Option Payload :=
  if jsTrim s.formValues.title = "" ∨ jsTrim s.formValues.authorName = "" ∨
      jsTrim s.formValues.content = "" then
    ({ s with error := some VALIDATION_MSG }, none)
  else
    let s1 := { s with submitting := true, error := none }
    let payload : Payload :=
      { title := jsTrim s1.formValues.title
        authorName := jsTrim s1.formValues.authorName
        content := jsTrim s1.formValues.content
        image := if jsTrim s1.formValues.image = "" then DEFAULT_IMAGE
                 else jsTrim s1.formValues.image
        timestamp := today
        hasComments := [] }
    match outcome with
    | .ok =>
      let s2 := { s1 with success := some SUBMIT_SUCCESS_MSG,
                          formValues := ⟨"", "", "", ""⟩ }
      ({ s2 with submitting := false }, some payload)
    | .fail e =>
      let s2 := { s1 with error := some (composerErrorMessage e) }
      ({ s2 with submitting := false }, some payload)

/-- `FALLBACK_IMAGE` (`BlogCard.tsx`): the fixed cover used when a post
carries no usable image URL. -/
def FALLBACK_IMAGE : String :=
  "https://images.unsplash.com/photo-1520607162513-77705c0f0d4a?auto=format&fit=crop&w=1200&q=80"

/-- `coverImage` (`BlogCard.tsx`):
`post.image && post.image.trim().length ? post.image : FALLBACK_IMAGE`.
An absent image (`undefined`) and the empty string are falsy; a non-empty
string must also trim to something non-empty; note the selected value is
the original `post.image`, not its trimmed form. -/
def coverImage (image : Option String) : String :=
  match image with
  | none => FALLBACK_IMAGE
  | some s =>
    if s = "" then FALLBACK_IMAGE
    else if (jsTrim s).length = 0 then FALLBACK_IMAGE
    else s

/-- The three page components reachable in principle: the feed (`Home`),
the curated static page (`Blogpost`), and the creation form
(`BlogEditor`). -/
inductive View where
  | feed
  | curated
  | creation
deriving DecidableEq, Repr

/-- A route target of React Router's `Routes` element: render a page, or
a `Navigate` redirect to another path. -/
inductive RouteTarget where
  | page (v : View)
  | redirect (dest : String)
deriving DecidableEq, Repr

/-- The route table of `App` (`src/unnamed/part_000`): `/home` renders
`Home`, `/blogpost` renders `Blogpost`, `/` and the wildcard `*` redirect
to `/home`.  No route renders `BlogEditor`. -/
def routes : List (String × RouteTarget) :=
  [("/home", .page .feed),
   ("/blogpost", .page .curated),
   ("/", .redirect "/home"),
   ("*", .redirect "/home")]

/-- Exact-path route matching with a trailing `*` wildcard, as React
Router resolves this table: the first entry whose pattern equals the path
or is the wildcard wins. -/
def matchRoute (path : String) : Option RouteTarget :=
  (routes.find? (fun r => r.1 == path || r.1 == "*")).map Prod.snd

/-- Follows redirects from a path down to a rendered view; the fuel
bounds redirect chains (this table needs at most one hop). -/
def resolveRoute : Nat → String → Option View
  | 0, _ => none
  | fuel + 1, path =>
    match matchRoute path with
    | some (.page v) => some v
    | some (.redirect dest) => resolveRoute fuel dest
    | none => none

/-- The view the router renders for a path: resolution with enough fuel
for this table's single-hop redirects. -/
def renderedView (path : String) : Option View :=
  resolveRoute 2 path

/-- The path `handleAddBlog` (`Home.tsx`) navigates to from the feed's
Add Blog buttons. -/
def addBlogPath : String := "/blog/create"

/-- Concrete posts used at the counterexamples: one entry whose timestamp
the `Date` parser rejects, and two dated entries a year apart. -/
def postUnparseable : BlogPost :=
  { id := 0, title := "u", content := "cu", image := none,
    timestamp := "not-a-date", authorName := "au", hasComments := none }

/-- A post dated 2020-01-01. -/
def postOld : BlogPost :=
  { id := 1, title := "o", content := "co", image := none,
    timestamp := "2020-01-01", authorName := "ao", hasComments := none }

/-- A post dated 2021-01-01. -/
def postNew : BlogPost :=
  { id := 2, title := "n", content := "cn", image := none,
    timestamp := "2021-01-01", authorName := "an", hasComments := none }

/-- A Composer state whose fields pass validation, used by the concrete
instances below. -/
def composerReadyState : ComposerState :=
  { formValues := { title := "T", authorName := "A", content := "C", image := "" },
    submitting := false, error := none, success := none }

/-- Membership after stable insertion comes from the inserted element or
from the original list. -/
theorem mem_insertSorted {c : α → α → Int} {x y : α} {l : List α}
    (h : y ∈ insertSorted c x l) : y = x ∨ y ∈ l := by
  induction l with
  | nil =>
    simp only [insertSorted, List.mem_singleton] at h
    exact Or.inl h
  | cons z zs ih =>
    simp only [insertSorted] at h
    by_cases hc : c x z ≤ 0
    · rw [if_pos hc] at h
      rcases List.mem_cons.mp h with h1 | h2
      · exact Or.inl h1
      · exact Or.inr h2
    · rw [if_neg hc] at h
      rcases List.mem_cons.mp h with h1 | h2
      · exact Or.inr (h1 ▸ List.mem_cons_self z zs)
      · rcases ih h2 with h3 | h4
        · exact Or.inl h3
        · exact Or.inr (List.mem_cons_of_mem z h4)

/-- Membership in the stable sort comes from the input list. -/
theorem mem_jsStableSort {c : α → α → Int} {y : α} {l : List α}
    (h : y ∈ jsStableSort c l) : y ∈ l := by
  induction l with
  | nil => simp only [jsStableSort] at h; exact absurd h (List.not_mem_nil y)
  | cons x xs ih =>
    simp only [jsStableSort] at h
    rcases mem_insertSorted h with h1 | h2
    · exact h1 ▸ List.mem_cons_self x xs
    · exact List.mem_cons_of_mem x (ih h2)

/-- Stable insertion preserves sortedness when the comparator is total
towards the inserted element and transitive from it, over the elements of
the list. -/
theorem insertSorted_pairwise {c : α → α → Int} {x : α} {l : List α}
    (total : ∀ b ∈ l, c x b ≤ 0 ∨ c b x ≤ 0)
    (trans : ∀ b ∈ l, ∀ z ∈ l, c x b ≤ 0 → c b z ≤ 0 → c x z ≤ 0)
    (h : l.Pairwise fun a b => c a b ≤ 0) :
    (insertSorted c x l).Pairwise fun a b => c a b ≤ 0 := by
  induction l with
  | nil => simp [insertSorted]
  | cons y ys ih =>
    rcases List.pairwise_cons.mp h with ⟨hy, hys⟩
    by_cases hxy : c x y ≤ 0
    · simp only [insertSorted, if_pos hxy]
      refine List.pairwise_cons.mpr ⟨?_, h⟩
      intro b hb
      rcases List.mem_cons.mp hb with rfl | hb'
      · exact hxy
      · exact trans y (List.mem_cons_self y ys) b (List.mem_cons_of_mem y hb') hxy (hy b hb')
    · simp only [insertSorted, if_neg hxy]
      refine List.pairwise_cons.mpr ⟨?_, ?_⟩
      · intro b hb
        rcases mem_insertSorted hb with rfl | hb'
        · rcases total y (List.mem_cons_self y ys) with h1 | h2
          · exact absurd h1 hxy
          · exact h2
        · exact hy b hb'
      · exact ih (fun b hb => total b (List.mem_cons_of_mem y hb))
          (fun b hb z hz => trans b (List.mem_cons_of_mem y hb) z (List.mem_cons_of_mem y hz))
          hys

/-- The stable sort produces a pairwise-ordered list whenever the
comparator is total and transitive over the elements of the input. -/
theorem jsStableSort_pairwise (c : α → α → Int) (l : List α)
    (total : ∀ a ∈ l, ∀ b ∈ l, c a b ≤ 0 ∨ c b a ≤ 0)
    (trans : ∀ a ∈ l, ∀ b ∈ l, ∀ z ∈ l, c a b ≤ 0 → c b z ≤ 0 → c a z ≤ 0) :
    (jsStableSort c l).Pairwise fun a b => c a b ≤ 0 := by
  induction l with
  | nil => simp [jsStableSort]
  | cons x xs ih =>
    simp only [jsStableSort]
    refine insertSorted_pairwise ?_ ?_
      (ih (fun a ha b hb => total a (List.mem_cons_of_mem x ha) b (List.mem_cons_of_mem x hb))
          (fun a ha b hb z hz => trans a (List.mem_cons_of_mem x ha) b (List.mem_cons_of_mem x hb)
            z (List.mem_cons_of_mem x hz)))
    · intro b hb
      exact total x (List.mem_cons_self x xs) b
        (List.mem_cons_of_mem x (mem_jsStableSort hb))
    · intro b hb z hz
      exact trans x (List.mem_cons_self x xs) b
        (List.mem_cons_of_mem x (mem_jsStableSort hb)) z
        (List.mem_cons_of_mem x (mem_jsStableSort hz))

/-- C1: refuted on the code.  At the input `[postUnparseable, postOld]`
the comparator returns `NaN` (coerced to `+0`), the stable sort keeps the
relative order, and the unparseable entry stays in front of the parseable
one instead of sorting to the end as the claim and the spec demand. -/
theorem c1_unparseable_not_sorted_to_end :
    jsDateParse postUnparseable.timestamp = none ∧
    (jsDateParse postOld.timestamp).isSome = true ∧
    sortedPosts [postUnparseable, postOld] = [postUnparseable, postOld] ∧
    ¬ (sortedPosts [postUnparseable, postOld]).Pairwise
        (fun a b => jsDateParse a.timestamp = none → jsDateParse b.timestamp = none) := by
  decide

/-- C4 (counterexample): with an unparseable entry between two dated
ones, every comparison against it returns `NaN`/`+0`, the stable sort
changes nothing, and the 2020 entry precedes the 2021 entry in the
output, violating the claimed descending order on parseable pairs. -/
theorem c4_earlier_precedes_later :
    sortedPosts [postOld, postUnparseable, postNew]
      = [postOld, postUnparseable, postNew] ∧
    ¬ (sortedPosts [postOld, postUnparseable, postNew]).Pairwise
        (fun a b => (jsDateParse a.timestamp).isSome = true →
          (jsDateParse b.timestamp).isSome = true →
          (jsDateParse b.timestamp).getD 0 ≤ (jsDateParse a.timestamp).getD 0) := by
  decide

/-- C4 (amended): on any input list in which every timestamp parses, the
feed sort orders the output by timestamp descending — no entry is
followed by a later-dated one. -/
theorem c4_sortedPosts_descending_on_parseable
    (l : List BlogPost)
    (h : ∀ p ∈ l, (jsDateParse p.timestamp).isSome) :
    (sortedPosts l).Pairwise
      (fun a b => (jsDateParse b.timestamp).getD 0 ≤ (jsDateParse a.timestamp).getD 0) := by
  have key : ∀ p ∈ l, ∃ k, jsDateParse p.timestamp = some k := fun p hp =>
    Option.isSome_iff_exists.mp (h p hp)
  have total : ∀ a ∈ l, ∀ b ∈ l, postCompare a b ≤ 0 ∨ postCompare b a ≤ 0 := by
    intro a ha b hb
    obtain ⟨ka, hka⟩ := key a ha
    obtain ⟨kb, hkb⟩ := key b hb
    simp only [postCompare, hka, hkb]
    omega
  have htrans : ∀ a ∈ l, ∀ b ∈ l, ∀ z ∈ l,
      postCompare a b ≤ 0 → postCompare b z ≤ 0 → postCompare a z ≤ 0 := by
    intro a ha b hb z hz
    obtain ⟨ka, hka⟩ := key a ha
    obtain ⟨kb, hkb⟩ := key b hb
    obtain ⟨kz, hkz⟩ := key z hz
    simp only [postCompare, hka, hkb, hkz]
    omega
  have hs := jsStableSort_pairwise postCompare l total htrans
  refine hs.imp_of_mem ?_
  intro a b ha hb hab
  obtain ⟨ka, hka⟩ := key a (mem_jsStableSort ha)
  obtain ⟨kb, hkb⟩ := key b (mem_jsStableSort hb)
  rw [hka, hkb]
  simp only [Option.getD_some]
  simp only [postCompare, hka, hkb] at hab
  omega

/-- C2 (counterexample): two create failures without a usable `detail` —
a server response whose body lacks `detail`, and a connection failure —
surface two different messages, so no single fixed fallback message
covers the claim's "otherwise" branch; and an empty `detail` string is
not surfaced verbatim either. -/
theorem c2_two_distinct_fallback_messages :
    (handleSubmit "2026-02-03" (.fail (.response none)) composerReadyState).1.error
        = some SERVER_REJECTED_MSG ∧
    (handleSubmit "2026-02-03" (.fail .network) composerReadyState).1.error
        = some CONNECTIVITY_MSG ∧
    SERVER_REJECTED_MSG ≠ CONNECTIVITY_MSG ∧
    (handleSubmit "2026-02-03" (.fail (.response (some ""))) composerReadyState).1.error
        ≠ some "" := by
  decide

/-- C2 (amended): on a failed create request that passed validation, a
non-empty `detail` string from a server response is surfaced verbatim; a
server response without a non-empty `detail` string surfaces the fixed
server-rejection message; and absent any server response the fixed
connectivity message is surfaced. -/
theorem c2_error_message_selection (today : String) (s : ComposerState) (e : CreateFailure)
    (hv : ¬(jsTrim s.formValues.title = "" ∨ jsTrim s.formValues.authorName = "" ∨
      jsTrim s.formValues.content = "")) :
    (∀ d, e = .response (some d) → d ≠ "" →
      (handleSubmit today (.fail e) s).1.error = some d) ∧
    ((e = .response none ∨ e = .response (some "")) →
      (handleSubmit today (.fail e) s).1.error = some SERVER_REJECTED_MSG) ∧
    (e = .network →
      (handleSubmit today (.fail e) s).1.error = some CONNECTIVITY_MSG) := by
  have hmsg : (handleSubmit today (.fail e) s).1.error = some (composerErrorMessage e) := by
    unfold handleSubmit
    rw [if_neg hv]
  refine ⟨?_, ?_, ?_⟩
  · intro d he hd
    subst he
    rw [hmsg]
    simp [composerErrorMessage, hd]
  · rintro (rfl | rfl) <;> rw [hmsg] <;> simp [composerErrorMessage]
  · rintro rfl
    rw [hmsg]
    rfl

/-- Witness for the amended C2 at the spec's own scenario: a 400 response
with body `{"detail":"title too long"}` surfaces exactly that string. -/
theorem c2_error_message_witness :
    (handleSubmit "2026-02-03" (.fail (.response (some "title too long")))
      composerReadyState).1.error = some "title too long" :=
  (c2_error_message_selection "2026-02-03" composerReadyState
    (.response (some "title too long")) (by decide)).1 "title too long" rfl (by decide)

/-- Any path other than the three registered ones falls to the wildcard
route, a redirect to `/home`. -/
theorem matchRoute_other {path : String} (h1 : path ≠ "/home") (h2 : path ≠ "/blogpost")
    (h3 : path ≠ "/") : matchRoute path = some (.redirect "/home") := by
  have b1 : (("/home" : String) == path) = false :=
    beq_eq_false_iff_ne.mpr fun hh => h1 hh.symm
  have b2 : (("/blogpost" : String) == path) = false :=
    beq_eq_false_iff_ne.mpr fun hh => h2 hh.symm
  have b3 : (("/" : String) == path) = false :=
    beq_eq_false_iff_ne.mpr fun hh => h3 hh.symm
  simp [matchRoute, routes, List.find?, b1, b2, b3]

/-- C3: refuted on the code.  The route table registers no path for the
creation view: the Add Blog path `/blog/create` falls to the wildcard and
redirects to the feed, and no path at all renders the creation view
(`BlogEditor` is absent from the table). -/
theorem c3_add_blog_path_reaches_feed_not_creation :
    renderedView addBlogPath = some View.feed ∧
    View.feed ≠ View.creation ∧
    ∀ path, renderedView path ≠ some View.creation := by
  refine ⟨by decide, by decide, ?_⟩
  intro path
  by_cases h1 : path = "/home"
  · subst h1; decide
  by_cases h2 : path = "/blogpost"
  · subst h2; decide
  by_cases h3 : path = "/"
  · subst h3; decide
  · have hm := matchRoute_other h1 h2 h3
    simp [renderedView, resolveRoute, hm]
    decide

/-- C5: every terminal outcome of `handleSubmit` — validation failure,
success, or a rejected/thrown request — leaves the `submitting` flag
false.  The flag is false when a submit can start (the submit button is
disabled while one is in flight); the validation path never raises it,
and the `finally` clause clears it on the success and failure paths. -/
theorem c5_submitting_cleared (today : String) (o : SubmitOutcome) (s : ComposerState)
    (h : s.submitting = false) :
    ((handleSubmit today o s).1).submitting = false := by
  unfold handleSubmit
  split
  · simpa using h
  · cases o <;> rfl

/-- Witness for C5 at a concrete rejected submit. -/
theorem c5_submitting_witness :
    composerReadyState.submitting = false ∧
    ((handleSubmit "2026-02-03" (.fail .network) composerReadyState).1).submitting = false :=
  ⟨rfl, c5_submitting_cleared "2026-02-03" (.fail .network) composerReadyState rfl⟩

/-- C6: when the title, author name, or content trims to empty,
`handleSubmit` sends no payload, surfaces the fixed validation message,
and leaves the entered form values untouched. -/
theorem c6_validation_blocks_submit (today : String) (o : SubmitOutcome) (s : ComposerState)
    (h : jsTrim s.formValues.title = "" ∨ jsTrim s.formValues.authorName = "" ∨
      jsTrim s.formValues.content = "") :
    (handleSubmit today o s).2 = none ∧
    (handleSubmit today o s).1.error = some VALIDATION_MSG ∧
    (handleSubmit today o s).1.formValues = s.formValues := by
  unfold handleSubmit
  rw [if_pos h]
  exact ⟨rfl, rfl, rfl⟩

/-- Witness for C6 at a whitespace-only title. -/
theorem c6_validation_witness :
    (handleSubmit "2026-02-03" .ok
      ⟨⟨" ", "A", "C", ""⟩, false, none, none⟩).2 = none ∧
    (handleSubmit "2026-02-03" .ok
      ⟨⟨" ", "A", "C", ""⟩, false, none, none⟩).1.error = some VALIDATION_MSG ∧
    (handleSubmit "2026-02-03" .ok
        ⟨⟨" ", "A", "C", ""⟩, false, none, none⟩).1.formValues
      = (⟨⟨" ", "A", "C", ""⟩, false, none, none⟩ : ComposerState).formValues :=
  c6_validation_blocks_submit "2026-02-03" .ok ⟨⟨" ", "A", "C", ""⟩, false, none, none⟩
    (by decide)

/-- Witness for the amended C4 at a concrete two-post feed. -/
theorem c4_descending_witness :
    (∀ p ∈ ([postOld, postNew] : List BlogPost), (jsDateParse p.timestamp).isSome) ∧
    (sortedPosts [postOld, postNew]).Pairwise
      (fun a b => (jsDateParse b.timestamp).getD 0 ≤ (jsDateParse a.timestamp).getD 0) :=
  ⟨by decide, c4_sortedPosts_descending_on_parseable [postOld, postNew] (by decide)⟩

/-- C7 (counterexample): a feed request whose 2xx body is malformed JSON
does not reject under axios defaults — it resolves with the raw string as
`data`, which is not an array — so the success path replaces a previously
held collection with `[]` and sets no error message, contradicting the
claim for its malformed-body cause. -/
theorem c7_malformed_body_wipes_posts :
    (loadPosts (.ok .nonArray)
        { posts := [postOld], loading := false, error := none }).posts ≠ [postOld] ∧
    (loadPosts (.ok .nonArray)
        { posts := [postOld], loading := false, error := none }).error = none := by
  decide

/-- C7 (amended): a feed load whose request rejects — a network error or
a non-2xx status — leaves the post collection exactly as it was before
the call and sets the single fixed error message (the loading flag is
also back to false). -/
theorem c7_failed_load_keeps_posts (s : HomeState) :
    (loadPosts .err s).posts = s.posts ∧
    (loadPosts .err s).error = some LOAD_ERROR_MSG ∧
    (loadPosts .err s).loading = false :=
  ⟨rfl, rfl, rfl⟩

/-- C8: a successful load whose body is not an array yields an empty post
collection and no error message. -/
theorem c8_non_array_body_empty_feed (s : HomeState) :
    (loadPosts (.ok .nonArray) s).posts = [] ∧
    (loadPosts (.ok .nonArray) s).error = none ∧
    (loadPosts (.ok .nonArray) s).loading = false :=
  ⟨rfl, rfl, rfl⟩

/-- The cover image of a present field reduces to a single blank test on
its trimmed form. -/
theorem coverImage_some (s : String) :
    coverImage (some s) = if jsTrim s = "" then FALLBACK_IMAGE else s := by
  by_cases hs0 : s = ""
  · subst hs0
    simp [coverImage, jsTrim]
  · by_cases ht : jsTrim s = ""
    · simp [coverImage, hs0, ht]
    · have hlen : (jsTrim s).length ≠ 0 := by
        intro h0
        exact ht (String.ext (List.length_eq_zero.mp h0))
      simp [coverImage, hs0, ht, hlen]

/-- C9: the resolved cover image equals the record's image field exactly
when it is present and non-blank after trimming, and the fixed fallback
URL otherwise; the result is never blank. -/
theorem c9_cover_image_resolution (r : BlogPost) :
    (∀ s, r.image = some s → jsTrim s ≠ "" → coverImage r.image = s) ∧
    ((∀ s, r.image = some s → jsTrim s = "") → coverImage r.image = FALLBACK_IMAGE) ∧
    jsTrim (coverImage r.image) ≠ "" := by
  have hfb : jsTrim FALLBACK_IMAGE ≠ "" := by decide
  obtain hr | ⟨s, hr⟩ : r.image = none ∨ ∃ s, r.image = some s := by
    cases r.image with
    | none => exact Or.inl rfl
    | some s => exact Or.inr ⟨s, rfl⟩
  · rw [hr]
    exact ⟨fun s hs => absurd hs (by simp), fun _ => rfl, hfb⟩
  · rw [hr, coverImage_some]
    by_cases ht : jsTrim s = ""
    · rw [if_pos ht]
      refine ⟨?_, fun _ => rfl, hfb⟩
      intro s' hs' htrim
      obtain rfl : s = s' := by injection hs'
      exact absurd ht htrim
    · rw [if_neg ht]
      refine ⟨?_, ?_, ht⟩
      · intro s' hs' _
        obtain rfl : s = s' := by injection hs'
        rfl
      · intro hall
        exact absurd (hall s rfl) ht

/-- Witness for C9 at a post carrying a non-blank image URL. -/
theorem c9_cover_image_witness :
    coverImage (BlogPost.image
      { id := 3, title := "t", content := "c", image := some "https://x",
        timestamp := "2020-01-01", authorName := "a", hasComments := none })
      = "https://x" :=
  (c9_cover_image_resolution
    { id := 3, title := "t", content := "c", image := some "https://x",
      timestamp := "2020-01-01", authorName := "a", hasComments := none }).1
    "https://x" rfl (by decide)

/-- C10: a change event carrying each of the four field names replaces
exactly that field with the event value and leaves the other three fields
unchanged. -/
theorem c10_handleChange_updates_only_named_field (v : String) (p : FormValues) :
    handleChange "title" v p = { p with title := v } ∧
    handleChange "authorName" v p = { p with authorName := v } ∧
    handleChange "content" v p = { p with content := v } ∧
    handleChange "image" v p = { p with image := v } := by
  refine ⟨rfl, ?_, ?_, ?_⟩ <;> simp [handleChange]
